import Mathlib

/-!
Shallow embedding of `src/Pixel_sim.py` (class `GameOfLife`), the cellular
automaton sandbox, together with proofs checking the specification's claims.

Conventions:
* A grid is a total function `Nat → Nat → Nat`, indexed `grid y x` exactly as
  the numpy array `self.grid[row][col]`; only indices with `y < H`, `x < W`
  are meaningful.  Cell states follow the source: `0` = empty, `1` = alive
  (Game-of-Life cell), `2` = tree.
* The numpy uniform random arrays (`np.random.random((H, W))`) are modelled as
  explicit fields `Nat → Nat → ℚ`; hypotheses `0 ≤ r` / `r < 1` state the
  range of `np.random.random`.  Float literals of the source (`0.05`, `0.5`,
  `1.2`) are modelled as the exact rationals `1/20`, `1/2`, `6/5`.
* `scipy.ndimage.convolve(..., mode='wrap')` with a 0/1 kernel is the toroidal
  correlation: a sum over kernel offsets with indices taken modulo the grid
  dimensions (all kernels in the source are symmetric, so convolution and
  correlation coincide).
-/

set_option maxRecDepth 100000

namespace PixelSim

/-- A grid of cell states, `grid y x` for row `y`, column `x`
(source: `self.grid`, `np.zeros((height, width), dtype=np.uint8)`). -/
abbrev Grid := Nat → Nat → Nat

/-- A per-cell field of uniform random draws
(source: `np.random.random((self.height, self.width))`). -/
abbrev RField := Nat → Nat → ℚ

/-- Window width constant (source: `WIDTH = 1920`). -/
def WIDTHc : ℚ := 1920

/-- Window height constant (source: `HEIGHT = 1080`). -/
def HEIGHTc : ℚ := 1080

/-- UI panel width (source: `self.ui_panel_width = 300`). -/
def uiPanelWidth : ℚ := 300

/-- Toroidal index wrap: the effect of `mode='wrap'` in `scipy.ndimage.convolve`,
index `i` taken modulo the axis length `n`. -/
def wrapIdx (n : Nat) (i : Int) : Nat := (i % (n : Int)).toNat

/-- The eight offsets of the Game-of-Life kernel
(source: `self.gol_kernel = np.array([[1,1,1],[1,0,1],[1,1,1]])`, centre 0). -/
def golOffsets : List (Int × Int) :=
  [(-1, -1), (-1, 0), (-1, 1), (0, -1), (0, 1), (1, -1), (1, 0), (1, 1)]

/-- Toroidal correlation count: for the cell `(y, x)`, the number of kernel
offsets `d` whose wrapped neighbour satisfies the predicate `p`
(source: `convolve(mask.astype(np.uint8), kernel, mode='wrap')`). -/
def countWrap (H W : Nat) (offs : List (Int × Int)) (p : Nat → Bool)
    (g : Grid) (y x : Nat) : Nat :=
  (offs.map (fun d =>
    if p (g (wrapIdx H ((y : Int) + d.1)) (wrapIdx W ((x : Int) + d.2)))
    then 1 else 0)).sum

/-- Alive-neighbour count of a cell
(source: `neighbors = convolve(living_grid.astype(np.uint8), self.gol_kernel, mode='wrap')`). -/
def neighborCount (H W : Nat) (g : Grid) (y x : Nat) : Nat :=
  countWrap H W golOffsets (fun c => c == 1) g y x

/-- Whether some in-range cell satisfies `p` (source: `np.any(mask)`). -/
def anyCell (H W : Nat) (p : Nat → Nat → Bool) : Bool :=
  decide (∃ y < H, ∃ x < W, p y x = true)

/-- Whether the grid holds an alive cell
(source: `has_white_pixels = np.any(self.grid == 1)`). -/
def hasAlive (H W : Nat) (g : Grid) : Bool :=
  anyCell H W (fun y x => g y x == 1)

/-- Empty positions in row-major order
(source: `empty_y, empty_x = np.where(self.grid == 0)`, C-order). -/
def emptyPositions (H W : Nat) (g : Grid) : List (Nat × Nat) :=
  (List.range H).flatMap
    (fun y => ((List.range W).filter (fun x => g y x == 0)).map (fun x => (y, x)))

/-- Empty positions that can anchor a 2×2 block
(source: `valid_mask = (empty_x < self.width - 1) & (empty_y < self.height - 1)`). -/
def validPositions (H W : Nat) (g : Grid) : List (Nat × Nat) :=
  (emptyPositions H W g).filter
    (fun p => decide (p.2 < W - 1) && decide (p.1 < H - 1))

/-- Whether the 2×2 block anchored at `(y, x)` is entirely empty
(source: `(self.grid[y:y+2, x:x+2] == 0).all()`). -/
def block22Empty (g : Grid) (y x : Nat) : Bool :=
  (g y x == 0) && (g y (x + 1) == 0) && (g (y + 1) x == 0) && (g (y + 1) (x + 1) == 0)

/-- The bootstrap target: the first position among the first 100 valid
positions whose 2×2 block is entirely empty
(source: `for i in range(min(100, len(valid_y))): ... if (...).all(): ...`). -/
def bootstrapTarget (H W : Nat) (g : Grid) : Option (Nat × Nat) :=
  ((validPositions H W g).take 100).find? (fun p => block22Empty g p.1 p.2)

/-- Setting the 2×2 block anchored at `p` alive
(source: `self.grid[y:y+2, x:x+2] = 1`). -/
def spawn22 (p : Nat × Nat) (g : Grid) : Grid :=
  fun y x => if (y = p.1 ∨ y = p.1 + 1) ∧ (x = p.2 ∨ x = p.2 + 1) then 1 else g y x

/-- Survival mask (source: `gol_survive = living_grid & ((neighbors == 2) | (neighbors == 3))`). -/
def golSurvive (H W : Nat) (g : Grid) (y x : Nat) : Bool :=
  (g y x == 1) && (neighborCount H W g y x == 2 || neighborCount H W g y x == 3)

/-- Birth mask (source: `gol_born = (self.grid == 0) & (neighbors == 3)`). -/
def golBorn (H W : Nat) (g : Grid) (y x : Nat) : Bool :=
  (g y x == 0) && (neighborCount H W g y x == 3)

/-- Trees with at least one alive neighbour
(source: `trees_with_neighbors = (self.grid == 2) & (neighbors > 0)`). -/
def treesWithNeighbors (H W : Nat) (g : Grid) (y x : Nat) : Bool :=
  (g y x == 2) && decide (0 < neighborCount H W g y x)

/-- Tree-conversion mask, a fresh random field compared against `0.5`
(source: `trees_convert = trees_with_neighbors & (self._random_array < 0.5)`,
guarded by `if np.any(trees_with_neighbors)`). -/
def treesConvert (H W : Nat) (rConv : RField) (g : Grid) (y x : Nat) : Bool :=
  if anyCell H W (treesWithNeighbors H W g)
  then treesWithNeighbors H W g y x && decide (rConv y x < mkRat 1 2)
  else false

/-- Combined candidate mask
(source: `should_be_white = gol_survive | gol_born | trees_convert`). -/
def shouldBeWhite (H W : Nat) (rConv : RField) (g : Grid) (y x : Nat) : Bool :=
  golSurvive H W g y x || golBorn H W g y x || treesConvert H W rConv g y x

/-- The failure gate: a fresh random field compared against `0.05`
(source: `actually_white = should_be_white & (self._random_array >= 0.05)`,
guarded by `if np.any(should_be_white)`). -/
def actuallyWhite (H W : Nat) (rConv rGate : RField) (g : Grid) (y x : Nat) : Bool :=
  if anyCell H W (shouldBeWhite H W rConv g)
  then shouldBeWhite H W rConv g y x && decide (mkRat 1 20 ≤ rGate y x)
  else false

/-- The non-bootstrap body of the Game-of-Life rule
(source: `self._temp_grid.fill(0); self._temp_grid[self.grid == 2] = 2;
self._temp_grid[actually_white] = 1` followed by the buffer swap). -/
def golNormal (H W : Nat) (rConv rGate : RField) (g : Grid) : Grid :=
  fun y x =>
    if actuallyWhite H W rConv rGate g y x then 1
    else if g y x = 2 then 2 else 0

/-- One application of `apply_game_of_life_rule` (source lines 164–217):
return unchanged when disabled; when no alive cell exists, run the bootstrap
scan and, if it finds a block, spawn it and return; otherwise fall through to
the normal rule body. -/
def applyGameOfLifeRule (H W : Nat) (enabled : Bool) (rConv rGate : RField)
    (g : Grid) : Grid :=
  if enabled then
    if hasAlive H W g then golNormal H W rConv rGate g
    else
      match bootstrapTarget H W g with
      | some p => spawn22 p g
      | none => golNormal H W rConv rGate g
  else g

/-- Offsets of the tree-spread kernel of the given radius: the full
`(2r+1) × (2r+1)` square with the centre removed
(source: `get_tree_kernel`, `kernel[radius, radius] = 0`). -/
def treeOffsets (radius : Nat) : List (Int × Int) :=
  ((List.range (2 * radius + 1)).flatMap (fun i =>
    (List.range (2 * radius + 1)).map
      (fun j => ((i : Int) - radius, (j : Int) - radius)))).filter
    (fun d => !(d.1 == 0 && d.2 == 0))

/-- Tree-neighbour count within the spread radius
(source: `nearby_trees = convolve(tree_mask.astype(np.uint8), kernel, mode='wrap')`). -/
def nearbyTrees (H W radius : Nat) (g : Grid) (y x : Nat) : Nat :=
  countWrap H W (treeOffsets radius) (fun c => c == 2) g y x

/-- Spontaneous-generation step of the tree rule, including the source's skip
(source: `if self.trees_config['spontaneous_chance'] > 0 and np.any(empty_cells):
... spontaneous_trees = empty_cells & (self._random_array < spontaneous_chance);
self.grid[spontaneous_trees] = 2`; the inner `np.any(spontaneous_trees)` guard
only skips a write of an all-false mask, which is pointwise the same). -/
def spontStep (H W : Nat) (spont : ℚ) (r : RField) (g : Grid) : Grid :=
  if 0 < spont ∧ anyCell H W (fun y x => g y x == 0) = true
  then fun y x => if g y x = 0 ∧ r y x < spont then 2 else g y x
  else g

/-- Spread step of the tree rule, including the source's skips
(source: `if self.trees_config['spread_chance'] > 0 and np.any(empty_cells): ...
if np.any(tree_mask): ... can_spread = empty_cells & (nearby_trees > 0);
new_trees = can_spread & (self._random_array < spread_chance);
self.grid[new_trees] = 2`; the inner `np.any(can_spread)` and
`np.any(new_trees)` guards only skip writes of all-false masks). -/
def spreadStep (H W : Nat) (spread : ℚ) (radius : Nat) (r : RField) (g : Grid) : Grid :=
  if 0 < spread ∧ anyCell H W (fun y x => g y x == 0) = true then
    if anyCell H W (fun y x => g y x == 2) = true then
      fun y x =>
        if g y x = 0 ∧ 0 < nearbyTrees H W radius g y x ∧ r y x < spread then 2
        else g y x
    else g
  else g

/-- One application of `apply_trees_rule` (source lines 219–248). -/
def applyTreesRule (H W : Nat) (enabled : Bool) (spont spread : ℚ) (radius : Nat)
    (rSpont rSpread : RField) (g : Grid) : Grid :=
  if enabled then spreadStep H W spread radius rSpread (spontStep H W spont rSpont g)
  else g

/-- Spontaneous-generation step with every skip shortcut removed. -/
def spontStepSimple (spont : ℚ) (r : RField) (g : Grid) : Grid :=
  fun y x => if g y x = 0 ∧ r y x < spont then 2 else g y x

/-- Spread step with every skip shortcut removed. -/
def spreadStepSimple (H W : Nat) (spread : ℚ) (radius : Nat) (r : RField)
    (g : Grid) : Grid :=
  fun y x =>
    if g y x = 0 ∧ 0 < nearbyTrees H W radius g y x ∧ r y x < spread then 2
    else g y x

/-- The tree rule with every skip shortcut removed. -/
def applyTreesRuleSimple (H W : Nat) (enabled : Bool) (spont spread : ℚ)
    (radius : Nat) (rSpont rSpread : RField) (g : Grid) : Grid :=
  if enabled then
    spreadStepSimple H W spread radius rSpread (spontStepSimple spont rSpont g)
  else g

/-- Iterated application of the tree rule, with a fresh pair of random fields
(spontaneous, spread) for each tick, as drawn by the source per invocation. -/
def iterTreesRule (H W : Nat) (enabled : Bool) (spont spread : ℚ) (radius : Nat)
    (fs : Nat → RField × RField) : Nat → Grid → Grid
  | 0, g => g
  | n + 1, g =>
      iterTreesRule H W enabled spont spread radius fs n
        (applyTreesRule H W enabled spont spread radius (fs n).1 (fs n).2 g)

/-- One tick: trees rule first, then Game-of-Life
(source: `update_grid`, lines 250–257). -/
def updateGrid (H W : Nat) (golEnabled treesEnabled : Bool) (spont spread : ℚ)
    (radius : Nat) (rSpont rSpread rConv rGate : RField) (g : Grid) : Grid :=
  applyGameOfLifeRule H W golEnabled rConv rGate
    (applyTreesRule H W treesEnabled spont spread radius rSpont rSpread g)

/-- Randomized grid: alive with probability `density`, else empty, one uniform
draw per cell (source: `randomize_grid`,
`np.random.choice([0, 1], size=(h, w), p=[1-density, density])`, modelled by
inverse-CDF sampling of the per-cell uniform draw). -/
def randomizeGrid (density : ℚ) (r : RField) : Grid :=
  fun y x => if r y x < density then 1 else 0

/-- Viewport state (source: `self.zoom_level`, `self.pan_x`, `self.pan_y`). -/
structure Viewport where
  zoom : ℚ
  panX : ℚ
  panY : ℚ
  deriving DecidableEq

/-- Python's `int()` conversion: truncation toward zero. -/
def pyInt (q : ℚ) : Int := if q < 0 then -⌊-q⌋ else ⌊q⌋

/-- Screen-to-grid coordinate conversion (source: `screen_to_grid`,
`(int(screen_x / self.zoom_level + self.pan_x), int(screen_y / self.zoom_level + self.pan_y))`). -/
def screenToGrid (v : Viewport) (sx sy : ℚ) : Int × Int :=
  (pyInt (sx / v.zoom + v.panX), pyInt (sy / v.zoom + v.panY))

/-- Width of the simulation area
(source: `sim_width = WIDTH - (self.ui_panel_width if self.ui_visible else 0)`). -/
def simWidth (uiVisible : Bool) : ℚ :=
  WIDTHc - (if uiVisible then uiPanelWidth else 0)

/-- Pan clamping (source: `self.pan_x = max(0, min(max_pan_x, self.pan_x))`). -/
def clampPan (limit p : ℚ) : ℚ := max 0 (min limit p)

/-- One zoom event (source: `handle_zoom`, lines 454–476): early return over
the UI panel; multiply or divide the zoom by `1.2` (modelled as `6/5`) clamped
to `[min_zoom, max_zoom] = [1/2, 8]`; re-anchor the pan by the integer grid
coordinate delta under the cursor; clamp the pan. -/
def handleZoom (button : Nat) (mouseX mouseY : ℚ) (uiVisible : Bool)
    (gridW gridH : ℚ) (v : Viewport) : Viewport :=
  if uiVisible = true ∧ WIDTHc - uiPanelWidth < mouseX then v
  else
    let og := screenToGrid v mouseX mouseY
    let z1 := if button = 4 then min 8 (v.zoom * mkRat 6 5)
              else if button = 5 then max (mkRat 1 2) (v.zoom / mkRat 6 5)
              else v.zoom
    let ng := screenToGrid ⟨z1, v.panX, v.panY⟩ mouseX mouseY
    let px := v.panX + ((og.1 - ng.1 : Int) : ℚ)
    let py := v.panY + ((og.2 - ng.2 : Int) : ℚ)
    let mpx := max 0 (gridW - simWidth uiVisible / z1)
    let mpy := max 0 (gridH - HEIGHTc / z1)
    ⟨z1, clampPan mpx px, clampPan mpy py⟩

/-- Normalization of a numpy basic-slice endpoint (step 1) on an axis of
length `n`: a negative index counts from the end (floored at 0), a
non-negative one is capped at `n`. -/
def normStop (n : Nat) (i : Int) : Nat :=
  if i < 0 then ((n : Int) + i).toNat else min i.toNat n

/-- The brush edit of `handle_mouse` (source lines 433–452): slice bounds
`x_start = max(0, grid_x - brush_size//2)`,
`x_end = min(self.width, grid_x + brush_size//2 + 1)` (and likewise for `y`),
then the numpy slice assignment `self.grid[y_start:y_end, x_start:x_end] = cell_type`,
whose endpoints follow numpy basic-slice normalization. -/
def editGrid (H W : Nat) (gx gy : Int) (brush : Nat) (cellType : Nat)
    (g : Grid) : Grid :=
  let xs := normStop W (max 0 (gx - (brush / 2 : Nat)))
  let xe := normStop W (min (W : Int) (gx + (brush / 2 : Nat) + 1))
  let ys := normStop H (max 0 (gy - (brush / 2 : Nat)))
  let ye := normStop H (min (H : Int) (gy + (brush / 2 : Nat) + 1))
  fun y x => if ys ≤ y ∧ y < ye ∧ xs ≤ x ∧ x < xe then cellType else g y x

/-- The brush square the edit requests: the half-open index square of side
`brush` centred the way `handle_mouse` computes its slice bounds, before any
clamping to the grid. -/
def inBrushSquare (gx gy : Int) (brush : Nat) (y x : Nat) : Prop :=
  gy - (brush / 2 : Nat) ≤ (y : Int) ∧ (y : Int) < gy + (brush / 2 : Nat) + 1 ∧
  gx - (brush / 2 : Nat) ≤ (x : Int) ∧ (x : Int) < gx + (brush / 2 : Nat) + 1

instance (gx gy : Int) (brush : Nat) (y x : Nat) :
    Decidable (inBrushSquare gx gy brush y x) := by
  unfold inBrushSquare; infer_instance

/-- The specification's neighbour count, written directly from its words: the
sum over the eight radius-1 offsets of the alive indicator at the toroidally
wrapped position. -/
def specNeighborCount (H W : Nat) (g : Grid) (y x : Nat) : Nat :=
  (if g (wrapIdx H ((y : Int) - 1)) (wrapIdx W ((x : Int) - 1)) = 1 then 1 else 0) +
  (if g (wrapIdx H ((y : Int) - 1)) (wrapIdx W (x : Int)) = 1 then 1 else 0) +
  (if g (wrapIdx H ((y : Int) - 1)) (wrapIdx W ((x : Int) + 1)) = 1 then 1 else 0) +
  (if g (wrapIdx H (y : Int)) (wrapIdx W ((x : Int) - 1)) = 1 then 1 else 0) +
  (if g (wrapIdx H (y : Int)) (wrapIdx W ((x : Int) + 1)) = 1 then 1 else 0) +
  (if g (wrapIdx H ((y : Int) + 1)) (wrapIdx W ((x : Int) - 1)) = 1 then 1 else 0) +
  (if g (wrapIdx H ((y : Int) + 1)) (wrapIdx W (x : Int)) = 1 then 1 else 0) +
  (if g (wrapIdx H ((y : Int) + 1)) (wrapIdx W ((x : Int) + 1)) = 1 then 1 else 0)

/-- The all-zero random field, a valid value of `np.random.random`. -/
def zeroField : RField := fun _ _ => 0

/-- The all-empty grid. -/
def zeroGrid : Grid := fun _ _ => 0

/-- A concrete 3×3 grid: alive at `(0,0)`, `(0,1)`, `(1,0)`, a tree at `(1,1)`. -/
def treeGrid : Grid :=
  fun y x =>
    if y = 0 ∧ x ≤ 1 then 1
    else if y = 1 ∧ x = 0 then 1
    else if y = 1 ∧ x = 1 then 2
    else 0

/-- A concrete 2×103 grid with no alive cell: row 1 holds trees in columns
0–100, every other cell is empty.  Its first 102 valid bootstrap positions are
`(0,0) … (0,101)`; each of the first 100 fails the 2×2-empty check, and the
block at `(0,101)` is entirely empty. -/
def blockedGrid : Grid :=
  fun y x => if y = 1 ∧ x < 101 then 2 else 0

end PixelSim

namespace PixelSim

/-! Helper lemmas. -/

/-- A wrapped index lands inside the axis. -/
theorem wrapIdx_lt (n : Nat) (hn : 0 < n) (i : Int) : wrapIdx n i < n := by
  unfold wrapIdx
  have h0 : (0 : Int) < (n : Int) := by exact_mod_cast hn
  have h1 := Int.emod_lt_of_pos i h0
  have h2 := Int.emod_nonneg i (Ne.symm h0.ne)
  omega

/-- A toroidal count is zero when no in-range cell satisfies the predicate. -/
theorem countWrap_eq_zero (H W : Nat) (offs : List (Int × Int)) (p : Nat → Bool)
    (g : Grid) (y x : Nat) (hH : 0 < H) (hW : 0 < W)
    (h : ∀ a, a < H → ∀ b, b < W → p (g a b) = false) :
    countWrap H W offs p g y x = 0 := by
  unfold countWrap
  induction offs with
  | nil => rfl
  | cons d t ih =>
    simp only [List.map_cons, List.sum_cons]
    rw [h _ (wrapIdx_lt H hH _) _ (wrapIdx_lt W hW _)]
    simpa using ih

/-- A toroidal count only reads in-range cells. -/
theorem countWrap_congr (H W : Nat) (offs : List (Int × Int)) (p : Nat → Bool)
    (g g' : Grid) (y x : Nat) (hH : 0 < H) (hW : 0 < W)
    (h : ∀ a, a < H → ∀ b, b < W → g a b = g' a b) :
    countWrap H W offs p g y x = countWrap H W offs p g' y x := by
  unfold countWrap
  induction offs with
  | nil => rfl
  | cons d t ih =>
    simp only [List.map_cons, List.sum_cons]
    rw [h _ (wrapIdx_lt H hH _) _ (wrapIdx_lt W hW _), ih]

/-- With no alive cell in range, every neighbour count is zero. -/
theorem neighborCount_eq_zero (H W : Nat) (g : Grid) (y x : Nat)
    (hH : 0 < H) (hW : 0 < W) (h : ∀ a, a < H → ∀ b, b < W → g a b ≠ 1) :
    neighborCount H W g y x = 0 := by
  refine countWrap_eq_zero H W golOffsets _ g y x hH hW (fun a ha b hb => ?_)
  simpa using h a ha b hb

/-- The `np.any` guard on the failure gate is a pointwise no-op: at every
in-range cell the gate mask equals candidate-and-draw-passes. -/
theorem actuallyWhite_eq (H W : Nat) (rConv rGate : RField) (g : Grid)
    (y x : Nat) (hy : y < H) (hx : x < W) :
    actuallyWhite H W rConv rGate g y x =
      (shouldBeWhite H W rConv g y x && decide (mkRat 1 20 ≤ rGate y x)) := by
  unfold actuallyWhite
  split
  · rfl
  · rename_i hany
    have hP : ¬ ∃ a < H, ∃ b < W, shouldBeWhite H W rConv g a b = true := by
      simpa [anyCell] using hany
    cases hb : shouldBeWhite H W rConv g y x with
    | false => rfl
    | true => exact absurd ⟨y, hy, x, hx, hb⟩ hP

/-- The `np.any` guard on the tree-conversion mask is a pointwise no-op. -/
theorem treesConvert_eq (H W : Nat) (rConv : RField) (g : Grid)
    (y x : Nat) (hy : y < H) (hx : x < W) :
    treesConvert H W rConv g y x =
      (treesWithNeighbors H W g y x && decide (rConv y x < mkRat 1 2)) := by
  unfold treesConvert
  split
  · rfl
  · rename_i hany
    have hP : ¬ ∃ a < H, ∃ b < W, treesWithNeighbors H W g a b = true := by
      simpa [anyCell] using hany
    cases hb : treesWithNeighbors H W g y x with
    | false => rfl
    | true => exact absurd ⟨y, hy, x, hx, hb⟩ hP

/-- With no alive cell in range, the normal Game-of-Life body only preserves
trees and empties everything else. -/
theorem golNormal_of_noAlive (H W : Nat) (rConv rGate : RField) (g : Grid)
    (y x : Nat) (hy : y < H) (hx : x < W)
    (h : ∀ a, a < H → ∀ b, b < W → g a b ≠ 1) :
    golNormal H W rConv rGate g y x = if g y x = 2 then 2 else 0 := by
  have hH : 0 < H := Nat.lt_of_le_of_lt (Nat.zero_le y) hy
  have hW : 0 < W := Nat.lt_of_le_of_lt (Nat.zero_le x) hx
  have hn : neighborCount H W g y x = 0 := neighborCount_eq_zero H W g y x hH hW h
  have hg : (g y x == 1) = false := by simpa using h y hy x hx
  have htw : treesWithNeighbors H W g y x = false := by
    simp [treesWithNeighbors, hn]
  have hsb : shouldBeWhite H W rConv g y x = false := by
    simp [shouldBeWhite, golSurvive, golBorn, treesConvert, hg, hn, htw]
  have haw : actuallyWhite H W rConv rGate g y x = false := by
    unfold actuallyWhite
    split
    · simp [hsb]
    · rfl
  simp [golNormal, haw]

end PixelSim

namespace PixelSim

/-! Claim C1. -/

/-- C1 counterexample: on the 3×3 grid `treeGrid` (alive at (0,0), (0,1),
(1,0); tree at (1,1)) with all random draws 0, the tree at (1,1) is a
should-be-alive candidate (conversion draw 0 < 0.5) that fails the failure
gate (gate draw 0 < 0.05), yet after the tick it is still Tree (2), not
Empty (0) as the claim states. -/
theorem C1_counterexample :
    shouldBeWhite 3 3 zeroField treeGrid 1 1 = true ∧
    zeroField 1 1 < mkRat 1 20 ∧
    applyGameOfLifeRule 3 3 true zeroField zeroField treeGrid 1 1 = 2 :=
  ⟨by decide, by decide, by decide⟩

/-- C1 (amended): in a grid with at least one alive cell, each
should-be-alive candidate becomes Alive exactly when it passes the single
shared per-cell Bernoulli gate (draw ≥ 0.05, probability 0.95, one draw per
candidate cell, not one per rule); a candidate that fails the gate does not
become Alive: it reverts to Empty unless it was a Tree, in which case it
remains Tree; in the final state exactly the Tree cells not actually consumed
by a gate-passing conversion remain Tree, and every other non-Alive cell is
Empty. -/
theorem C1_gate (H W : Nat) (rConv rGate : RField) (g : Grid) (y x : Nat)
    (hA : hasAlive H W g = true) (hy : y < H) (hx : x < W) :
    (applyGameOfLifeRule H W true rConv rGate g y x = 1 ↔
      shouldBeWhite H W rConv g y x = true ∧ mkRat 1 20 ≤ rGate y x) ∧
    (shouldBeWhite H W rConv g y x = true → rGate y x < mkRat 1 20 →
      applyGameOfLifeRule H W true rConv rGate g y x =
        if g y x = 2 then 2 else 0) ∧
    (applyGameOfLifeRule H W true rConv rGate g y x = 2 ↔
      g y x = 2 ∧
        ¬(shouldBeWhite H W rConv g y x = true ∧ mkRat 1 20 ≤ rGate y x)) ∧
    (applyGameOfLifeRule H W true rConv rGate g y x = 0 ↔
      g y x ≠ 2 ∧
        ¬(shouldBeWhite H W rConv g y x = true ∧ mkRat 1 20 ≤ rGate y x)) := by
  have hstep : applyGameOfLifeRule H W true rConv rGate g =
      golNormal H W rConv rGate g := by
    simp [applyGameOfLifeRule, hA]
  rw [hstep]
  have haw := actuallyWhite_eq H W rConv rGate g y x hy hx
  unfold golNormal
  rw [haw]
  by_cases hsb : shouldBeWhite H W rConv g y x = true
  · by_cases hgate : mkRat 1 20 ≤ rGate y x
    · simp [hsb, hgate]
    · have hlt : rGate y x < mkRat 1 20 := lt_of_not_le hgate
      by_cases hg2 : g y x = 2 <;> simp [hsb, hgate, hg2, hlt]
  · have hsbf : shouldBeWhite H W rConv g y x = false := by
      simpa using hsb
    by_cases hg2 : g y x = 2 <;> simp [hsbf, hg2]

end PixelSim

namespace PixelSim

/-- C1 witness: the amended gate law instantiated on the concrete 3×3 grid
`treeGrid` at cell (1,1) with all draws 0. -/
theorem C1_gate_witness :
    hasAlive 3 3 treeGrid = true ∧ 1 < 3 ∧ 1 < 3 ∧
    ((applyGameOfLifeRule 3 3 true zeroField zeroField treeGrid 1 1 = 1 ↔
        shouldBeWhite 3 3 zeroField treeGrid 1 1 = true ∧
          mkRat 1 20 ≤ zeroField 1 1) ∧
      (shouldBeWhite 3 3 zeroField treeGrid 1 1 = true →
        zeroField 1 1 < mkRat 1 20 →
        applyGameOfLifeRule 3 3 true zeroField zeroField treeGrid 1 1 =
          if treeGrid 1 1 = 2 then 2 else 0) ∧
      (applyGameOfLifeRule 3 3 true zeroField zeroField treeGrid 1 1 = 2 ↔
        treeGrid 1 1 = 2 ∧
          ¬(shouldBeWhite 3 3 zeroField treeGrid 1 1 = true ∧
            mkRat 1 20 ≤ zeroField 1 1)) ∧
      (applyGameOfLifeRule 3 3 true zeroField zeroField treeGrid 1 1 = 0 ↔
        treeGrid 1 1 ≠ 2 ∧
          ¬(shouldBeWhite 3 3 zeroField treeGrid 1 1 = true ∧
            mkRat 1 20 ≤ zeroField 1 1))) :=
  ⟨by decide, by decide, by decide,
    C1_gate 3 3 zeroField zeroField treeGrid 1 1 (by decide) (by decide)
      (by decide)⟩

end PixelSim

namespace PixelSim

/-! Claim C3. -/

/-- The source's convolution-based neighbour count equals the specification's
standard 8-neighbour radius-1 toroidal count. -/
theorem neighborCount_eq_spec (H W : Nat) (g : Grid) (y x : Nat) :
    neighborCount H W g y x = specNeighborCount H W g y x := by
  simp only [neighborCount, countWrap, golOffsets, specNeighborCount,
    List.map_cons, List.map_nil, List.sum_cons, List.sum_nil, beq_iff_eq,
    sub_eq_add_neg]
  ring

/-- C3: in a grid with at least one alive cell, the step computes each cell's
alive-neighbour count over the standard 8-neighbour radius-1 toroidal kernel,
and the survival-or-birth candidate set is exactly the alive cells with count
2 or 3 together with the empty cells with count exactly 3. -/
theorem C3_candidates (H W : Nat) (g : Grid) (y x : Nat)
    (hA : hasAlive H W g = true) (hy : y < H) (hx : x < W) :
    neighborCount H W g y x = specNeighborCount H W g y x ∧
    ((golSurvive H W g y x || golBorn H W g y x) = true ↔
      (g y x = 1 ∧ (specNeighborCount H W g y x = 2 ∨
        specNeighborCount H W g y x = 3)) ∨
      (g y x = 0 ∧ specNeighborCount H W g y x = 3)) := by
  refine ⟨neighborCount_eq_spec H W g y x, ?_⟩
  rw [← neighborCount_eq_spec]
  simp [golSurvive, golBorn, Bool.or_eq_true, Bool.and_eq_true, beq_iff_eq]

/-- C3 witness: the candidate characterization instantiated on the concrete
3×3 grid `treeGrid` at cell (0,0). -/
theorem C3_candidates_witness :
    hasAlive 3 3 treeGrid = true ∧ 0 < 3 ∧ 0 < 3 ∧
    (neighborCount 3 3 treeGrid 0 0 = specNeighborCount 3 3 treeGrid 0 0 ∧
      ((golSurvive 3 3 treeGrid 0 0 || golBorn 3 3 treeGrid 0 0) = true ↔
        (treeGrid 0 0 = 1 ∧ (specNeighborCount 3 3 treeGrid 0 0 = 2 ∨
          specNeighborCount 3 3 treeGrid 0 0 = 3)) ∨
        (treeGrid 0 0 = 0 ∧ specNeighborCount 3 3 treeGrid 0 0 = 3))) :=
  ⟨by decide, by decide, by decide,
    C3_candidates 3 3 treeGrid 0 0 (by decide) (by decide) (by decide)⟩

end PixelSim

namespace PixelSim

/-! Claim C2. -/

/-- C2 counterexample: `blockedGrid` (2×103, no alive cell) has an entirely
empty 2×2 block at the valid position (0, 101), yet one tick of the enabled
Game-of-Life rule sets no cell Alive: the bootstrap scan gives up after the
first 100 valid positions, all of which fail the 2×2-empty check. -/
theorem C2_counterexample :
    hasAlive 2 103 blockedGrid = false ∧
    block22Empty blockedGrid 0 101 = true ∧
    (101 < 103 - 1 ∧ 0 < 2 - 1) ∧
    hasAlive 2 103
      (applyGameOfLifeRule 2 103 true zeroField zeroField blockedGrid) =
      false := by
  refine ⟨by decide, by decide, by decide, ?_⟩
  have hA : hasAlive 2 103 blockedGrid = false := by decide
  have hbt : bootstrapTarget 2 103 blockedGrid = none := by decide
  have hstep : applyGameOfLifeRule 2 103 true zeroField zeroField blockedGrid =
      golNormal 2 103 zeroField zeroField blockedGrid := by
    simp [applyGameOfLifeRule, hA, hbt]
  have hno : ∀ a, a < 2 → ∀ b, b < 103 → blockedGrid a b ≠ 1 := by decide
  have hres : ∀ y, y < 2 → ∀ x, x < 103 →
      applyGameOfLifeRule 2 103 true zeroField zeroField blockedGrid y x ≠ 1 := by
    intro y hy x hx
    rw [hstep,
      golNormal_of_noAlive 2 103 zeroField zeroField blockedGrid y x hy hx hno]
    split <;> omega
  simp only [hasAlive, anyCell, decide_eq_false_iff_not]
  rintro ⟨y, hy, x, hx, hb⟩
  exact hres y hy x hx (by simpa using hb)

/-- On an all-empty grid with both dimensions at least 2, the bootstrap scan
finds the block anchored at the origin. -/
theorem bootstrapTarget_allEmpty (H W : Nat) (g : Grid) (hH : 2 ≤ H) (hW : 2 ≤ W)
    (h : ∀ a, a < H → ∀ b, b < W → g a b = 0) :
    bootstrapTarget H W g = some (0, 0) := by
  obtain ⟨H', rfl⟩ : ∃ n, H = n + 1 := ⟨H - 1, by omega⟩
  obtain ⟨W', rfl⟩ : ∃ n, W = n + 1 := ⟨W - 1, by omega⟩
  have hrow0 : ((List.range (W' + 1)).filter (fun b => g 0 b == 0)) =
      List.range (W' + 1) := by
    refine List.filter_eq_self.mpr (fun b hb => ?_)
    simp [h 0 (by omega) b (List.mem_range.mp hb)]
  obtain ⟨rest, hEP⟩ : ∃ rest,
      emptyPositions (H' + 1) (W' + 1) g = (0, 0) :: rest := by
    rw [emptyPositions, List.range_succ_eq_map, List.flatMap_cons, hrow0,
      List.range_succ_eq_map]
    exact ⟨_, rfl⟩
  have hblock : block22Empty g 0 0 = true := by
    have h00 := h 0 (by omega) 0 (by omega)
    have h01 := h 0 (by omega) 1 (by omega)
    have h10 := h 1 (by omega) 0 (by omega)
    have h11 := h 1 (by omega) 1 (by omega)
    simp [block22Empty, h00, h01, h10, h11]
  have hVP : validPositions (H' + 1) (W' + 1) g =
      (0, 0) :: rest.filter (fun p =>
        decide (p.2 < W' + 1 - 1) && decide (p.1 < H' + 1 - 1)) := by
    rw [validPositions, hEP]
    exact List.filter_cons_of_pos (by
      simp only [Bool.and_eq_true, decide_eq_true_eq]
      omega)
  have htake : ∀ l : List (Nat × Nat),
      ((0, 0) :: l).take 100 = (0, 0) :: l.take 99 := fun _ => rfl
  rw [bootstrapTarget, hVP, htake]
  exact List.find?_cons_of_pos _ hblock

/-- C2 (amended): the bootstrap scan examines only the first 100 valid
positions, in row-major order; if one of those anchors an entirely empty 2×2
block, the first such block is set Alive and the rest of the rule body is
skipped for that tick (if none of the first 100 qualifies, the normal rule
body runs instead, even when a later position would qualify).  Starting from
an all-Empty grid (both dimensions ≥ 2) with Trees disabled, one tick
produces exactly the 2×2 Alive block anchored at the origin and no other
changes. -/
theorem C2_amended (H W : Nat) (g : Grid) (spont spread : ℚ) (radius : Nat)
    (rSpont rSpread rConv rGate : RField) :
    (2 ≤ H → 2 ≤ W → (∀ a, a < H → ∀ b, b < W → g a b = 0) →
      ∀ y, y < H → ∀ x, x < W →
        updateGrid H W true false spont spread radius
          rSpont rSpread rConv rGate g y x =
          if y ≤ 1 ∧ x ≤ 1 then 1 else 0) ∧
    (hasAlive H W g = false →
      ∀ p ∈ (validPositions H W g).take 100, block22Empty g p.1 p.2 = true →
      ∃ q ∈ (validPositions H W g).take 100,
        bootstrapTarget H W g = some q ∧ block22Empty g q.1 q.2 = true ∧
        ∀ y x, applyGameOfLifeRule H W true rConv rGate g y x =
          spawn22 q g y x) := by
  constructor
  · intro hH hW hemp y hy x hx
    have hAf : hasAlive H W g = false := by
      simp only [hasAlive, anyCell, decide_eq_false_iff_not]
      rintro ⟨a, ha, b, hb, hab⟩
      simp [hemp a ha b hb] at hab
    have hbt := bootstrapTarget_allEmpty H W g hH hW hemp
    have htr : applyTreesRule H W false spont spread radius rSpont rSpread g = g := by
      simp [applyTreesRule]
    rw [updateGrid, htr]
    simp only [applyGameOfLifeRule, hAf, hbt, if_true, Bool.false_eq_true,
      if_false]
    by_cases hc : y ≤ 1 ∧ x ≤ 1
    · have hd : (y = 0 ∨ y = 0 + 1) ∧ (x = 0 ∨ x = 0 + 1) := by omega
      simp [spawn22, hd, hc]
    · have hd : ¬((y = 0 ∨ y = 0 + 1) ∧ (x = 0 ∨ x = 0 + 1)) := by omega
      simp [spawn22, hd, hc, hemp y hy x hx]
  · intro hA p hp hbp
    obtain ⟨q, hq⟩ : ∃ q, bootstrapTarget H W g = some q := by
      cases hf : bootstrapTarget H W g with
      | none =>
        exact absurd hbp (by
          simpa using List.find?_eq_none.mp hf p hp)
      | some q => exact ⟨q, rfl⟩
    have hq' : List.find? (fun p => block22Empty g p.1 p.2)
        ((validPositions H W g).take 100) = some q := hq
    refine ⟨q, List.mem_of_find?_eq_some hq', hq, ?_, ?_⟩
    · have hpq := List.find?_some hq'
      simpa using hpq
    · intro y x
      simp [applyGameOfLifeRule, hA, hq]

/-- C2 witness: the all-Empty bootstrap behaviour instantiated on a 4×4
all-empty grid, evaluated inside the spawned block (cell (0,0)) and outside
it (cell (2,2)). -/
theorem C2_amended_witness :
    updateGrid 4 4 true false 0 0 3 zeroField zeroField zeroField zeroField
        zeroGrid 0 0 =
      (if (0 : Nat) ≤ 1 ∧ (0 : Nat) ≤ 1 then 1 else 0) ∧
    updateGrid 4 4 true false 0 0 3 zeroField zeroField zeroField zeroField
        zeroGrid 2 2 =
      (if (2 : Nat) ≤ 1 ∧ (2 : Nat) ≤ 1 then 1 else 0) :=
  ⟨(C2_amended 4 4 zeroGrid 0 0 3 zeroField zeroField zeroField zeroField).1
      (by decide) (by decide) (by decide) 0 (by decide) 0 (by decide),
    (C2_amended 4 4 zeroGrid 0 0 3 zeroField zeroField zeroField zeroField).1
      (by decide) (by decide) (by decide) 2 (by decide) 2 (by decide)⟩

end PixelSim

namespace PixelSim

/-! Claims C9 and C5. -/

/-- The spontaneous step leaves non-empty cells unchanged. -/
theorem spontStep_preserve (H W : Nat) (spont : ℚ) (r : RField) (g : Grid)
    (y x : Nat) (hne : g y x ≠ 0) :
    spontStep H W spont r g y x = g y x := by
  unfold spontStep
  split
  · simp [hne]
  · rfl

/-- The spread step leaves non-empty cells unchanged. -/
theorem spreadStep_preserve (H W : Nat) (spread : ℚ) (radius : Nat)
    (r : RField) (g : Grid) (y x : Nat) (hne : g y x ≠ 0) :
    spreadStep H W spread radius r g y x = g y x := by
  unfold spreadStep
  split
  · split
    · simp [hne]
    · rfl
  · rfl

/-- C9: the tree rule only ever converts Empty cells to Tree: for every grid,
parameter setting and random fields, a cell that is Alive (1) or Tree (2)
before `apply_trees_rule` holds exactly the same state after it. -/
theorem C9_trees_preserve (H W : Nat) (en : Bool) (spont spread : ℚ)
    (radius : Nat) (rSpont rSpread : RField) (g : Grid) (y x : Nat)
    (h : g y x = 1 ∨ g y x = 2) :
    applyTreesRule H W en spont spread radius rSpont rSpread g y x = g y x := by
  have hne : g y x ≠ 0 := by rcases h with h | h <;> simp [h]
  unfold applyTreesRule
  split
  · have h1 := spontStep_preserve H W spont rSpont g y x hne
    have h2 := spreadStep_preserve H W spread radius rSpread
      (spontStep H W spont rSpont g) y x (by rw [h1]; exact hne)
    rw [h2, h1]
  · rfl

/-- C9 witness: the tree at (1,1) of `treeGrid` survives the tree rule. -/
theorem C9_trees_preserve_witness :
    (treeGrid 1 1 = 1 ∨ treeGrid 1 1 = 2) ∧
    applyTreesRule 3 3 true (mkRat 1 2) (mkRat 1 2) 2 zeroField zeroField
      treeGrid 1 1 = treeGrid 1 1 :=
  ⟨by decide,
    C9_trees_preserve 3 3 true (mkRat 1 2) (mkRat 1 2) 2 zeroField zeroField
      treeGrid 1 1 (by decide)⟩

/-- With both probabilities zero, one tree-rule application is the identity. -/
theorem applyTreesRule_zero (H W : Nat) (en : Bool) (radius : Nat)
    (r1 r2 : RField) (g : Grid) :
    applyTreesRule H W en 0 0 radius r1 r2 g = g := by
  unfold applyTreesRule spreadStep spontStep
  simp

/-- The spontaneous step with its skip shortcuts agrees in range with the
shortcut-free version, for non-negative draws. -/
theorem spontStep_eq_simple (H W : Nat) (spont : ℚ) (r : RField) (g : Grid)
    (hr : ∀ a, a < H → ∀ b, b < W → 0 ≤ r a b)
    (y : Nat) (hy : y < H) (x : Nat) (hx : x < W) :
    spontStep H W spont r g y x = spontStepSimple spont r g y x := by
  unfold spontStep spontStepSimple
  split
  · rfl
  · rename_i hgate
    by_cases hsp : 0 < spont
    · have hac : anyCell H W (fun a b => g a b == 0) ≠ true :=
        fun hc => hgate ⟨hsp, hc⟩
      have hae : ¬ ∃ a < H, ∃ b < W, (g a b == 0) = true := by
        simpa [anyCell] using hac
      have hne : g y x ≠ 0 := by
        intro h0
        exact hae ⟨y, hy, x, hx, by simp [h0]⟩
      simp [hne]
    · have hnr : ¬ (r y x < spont) := by
        have h0 := hr y hy x hx
        have h1 := le_of_not_lt hsp
        intro hc
        linarith
      simp [hnr]

/-- The spread step with its skip shortcuts agrees in range with the
shortcut-free version, for non-negative draws, when the two input grids agree
in range. -/
theorem spreadStep_eq_simple (H W : Nat) (spread : ℚ) (radius : Nat)
    (r : RField) (g1 g1' : Grid)
    (hg : ∀ a, a < H → ∀ b, b < W → g1 a b = g1' a b)
    (hr : ∀ a, a < H → ∀ b, b < W → 0 ≤ r a b)
    (y : Nat) (hy : y < H) (x : Nat) (hx : x < W) :
    spreadStep H W spread radius r g1 y x =
      spreadStepSimple H W spread radius r g1' y x := by
  have hH : 0 < H := Nat.lt_of_le_of_lt (Nat.zero_le y) hy
  have hW : 0 < W := Nat.lt_of_le_of_lt (Nat.zero_le x) hx
  have hnear : nearbyTrees H W radius g1 y x = nearbyTrees H W radius g1' y x :=
    countWrap_congr H W (treeOffsets radius) (fun c => c == 2) g1 g1' y x hH hW hg
  have hcell := hg y hy x hx
  unfold spreadStep spreadStepSimple nearbyTrees
  unfold nearbyTrees at hnear
  split
  · split
    · simp only [hcell, hnear]
    · rename_i hgate htree
      have hnt : ¬ ∃ a < H, ∃ b < W, (g1 a b == 2) = true := by
        simpa [anyCell] using htree
      have hzero : countWrap H W (treeOffsets radius) (fun c => c == 2) g1 y x = 0 := by
        refine countWrap_eq_zero H W _ _ g1 y x hH hW (fun a ha b hb => ?_)
        cases hc : (g1 a b == 2) with
        | false => rfl
        | true => exact absurd ⟨a, ha, b, hb, hc⟩ hnt
      have hpos : ¬ (0 < countWrap H W (treeOffsets radius) (fun c => c == 2) g1' y x) := by
        rw [← hnear, hzero]
        omega
      simp [hpos, hcell]
  · rename_i hgate
    by_cases hsp : 0 < spread
    · have hac : anyCell H W (fun a b => g1 a b == 0) ≠ true :=
        fun hc => hgate ⟨hsp, hc⟩
      have hae : ¬ ∃ a < H, ∃ b < W, (g1 a b == 0) = true := by
        simpa [anyCell] using hac
      have hne : g1' y x ≠ 0 := by
        rw [← hcell]
        intro h0
        exact hae ⟨y, hy, x, hx, by simp [h0]⟩
      simp [hne, hcell]
    · have hnr : ¬ (r y x < spread) := by
        have h0 := hr y hy x hx
        have h1 := le_of_not_lt hsp
        intro hc
        linarith
      simp [hnr, hcell]

/-- C5: with `spread_chance = 0` and `spontaneous_chance = 0`, any number of
tree-rule ticks leaves the grid unchanged, and the skip-when-zero and
skip-when-no-qualifying-cells shortcuts never change the outcome: on every
random field of non-negative draws, the rule with shortcuts agrees in range
with the shortcut-free rule. -/
theorem C5_zero_inert (H W : Nat) (radius : Nat) (en : Bool)
    (fs : Nat → RField × RField) (g : Grid) :
    (∀ n, iterTreesRule H W en 0 0 radius fs n g = g) ∧
    (∀ spont spread : ℚ, ∀ rS rP : RField,
      (∀ a, a < H → ∀ b, b < W → 0 ≤ rS a b ∧ 0 ≤ rP a b) →
      ∀ y, y < H → ∀ x, x < W →
        applyTreesRule H W en spont spread radius rS rP g y x =
          applyTreesRuleSimple H W en spont spread radius rS rP g y x) := by
  constructor
  · intro n
    induction n with
    | zero => rfl
    | succ n ih =>
      rw [iterTreesRule, applyTreesRule_zero]
      exact ih
  · intro spont spread rS rP hr y hy x hx
    have hs1 : ∀ a, a < H → ∀ b, b < W →
        spontStep H W spont rS g a b = spontStepSimple spont rS g a b :=
      fun a ha b hb =>
        spontStep_eq_simple H W spont rS g (fun c hc d hd => (hr c hc d hd).1)
          a ha b hb
    unfold applyTreesRule applyTreesRuleSimple
    split
    · exact spreadStep_eq_simple H W spread radius rP _ _ hs1
        (fun c hc d hd => (hr c hc d hd).2) y hy x hx
    · rfl

/-- C5 witness: three inert ticks on `treeGrid`, and shortcut equivalence at
cell (0,0) with both chances 1/2. -/
theorem C5_zero_inert_witness :
    iterTreesRule 2 2 true 0 0 1 (fun _ => (zeroField, zeroField)) 3 treeGrid =
      treeGrid ∧
    applyTreesRule 2 2 true (mkRat 1 2) (mkRat 1 2) 1 zeroField zeroField
        treeGrid 0 0 =
      applyTreesRuleSimple 2 2 true (mkRat 1 2) (mkRat 1 2) 1 zeroField
        zeroField treeGrid 0 0 :=
  ⟨(C5_zero_inert 2 2 1 true (fun _ => (zeroField, zeroField)) treeGrid).1 3,
    (C5_zero_inert 2 2 1 true (fun _ => (zeroField, zeroField)) treeGrid).2
      (mkRat 1 2) (mkRat 1 2) zeroField zeroField (by decide) 0 (by decide) 0
      (by decide)⟩

end PixelSim

namespace PixelSim

/-! Claims C6 and C10. -/

/-- C6 counterexample: with zoom 1 and pan offset (-1/2, 0), the source's
`int()` conversion truncates toward zero, so screen pixel (0,0) maps to grid
column 0, whereas flooring `0/1 + (-1/2)` gives -1. -/
theorem C6_counterexample :
    (screenToGrid ⟨1, -(1/2), 0⟩ 0 0).1 = 0 ∧
    ⌊(0 : ℚ) / 1 + -(1/2)⌋ = -1 ∧ (0 : Int) ≠ -1 := by
  refine ⟨?_, ?_, by decide⟩
  · norm_num [screenToGrid, pyInt]
  · have h : ((0 : ℚ) / 1 + -(1/2)) = -(1/2) := by norm_num
    rw [h, Int.floor_eq_iff]
    norm_num

/-- C6 (amended): `screen_to_grid` applies Python `int()`, truncation toward
zero; whenever the zoom is positive and the screen coordinates and pan
offsets are non-negative (as holds for every pan the program ever stores and
every on-screen pixel), this coincides with the claimed floor of
`s/zoom + pan` on each axis. -/
theorem C6_trunc (zoom panX panY sx sy : ℚ) (hz : 0 < zoom)
    (hsx : 0 ≤ sx) (hsy : 0 ≤ sy) (hpx : 0 ≤ panX) (hpy : 0 ≤ panY) :
    screenToGrid ⟨zoom, panX, panY⟩ sx sy =
      (⌊sx / zoom + panX⌋, ⌊sy / zoom + panY⌋) := by
  have h1 : (0 : ℚ) ≤ sx / zoom + panX :=
    add_nonneg (div_nonneg hsx hz.le) hpx
  have h2 : (0 : ℚ) ≤ sy / zoom + panY :=
    add_nonneg (div_nonneg hsy hz.le) hpy
  simp [screenToGrid, pyInt, not_lt.mpr h1, not_lt.mpr h2]

/-- C6 witness: the floor form of `screen_to_grid` at zoom 2, pan (3,4),
screen pixel (5,6). -/
theorem C6_trunc_witness :
    (0 : ℚ) < 2 ∧ (0 : ℚ) ≤ 5 ∧ (0 : ℚ) ≤ 6 ∧ (0 : ℚ) ≤ 3 ∧ (0 : ℚ) ≤ 4 ∧
    screenToGrid ⟨2, 3, 4⟩ 5 6 = (⌊(5 : ℚ) / 2 + 3⌋, ⌊(6 : ℚ) / 2 + 4⌋) :=
  ⟨by norm_num, by norm_num, by norm_num, by norm_num, by norm_num,
    C6_trunc 2 3 4 5 6 (by norm_num) (by norm_num) (by norm_num) (by norm_num)
      (by norm_num)⟩

/-- C10: `screen_to_grid` performs no bounds clamping.  The viewport state
with zoom 1/2 (< 1) and pan (0,0) is reachable from the initial state by four
scroll-down zoom events at screen position (0,0); there, the on-screen pixel
(1919, 500) maps to grid column 3838 ≥ 1920, the grid width; the brush-edit
handler's slice bounds then clamp this out-of-range coordinate so the edit
writes nothing. -/
theorem C10_no_clamp :
    handleZoom 5 0 0 true 1920 1080 (handleZoom 5 0 0 true 1920 1080
        (handleZoom 5 0 0 true 1920 1080 (handleZoom 5 0 0 true 1920 1080
          ⟨1, 0, 0⟩))) = ⟨mkRat 1 2, 0, 0⟩ ∧
    mkRat 1 2 < (1 : ℚ) ∧
    (screenToGrid ⟨mkRat 1 2, 0, 0⟩ 1919 500).1 = 3838 ∧
    (1920 : Int) ≤ 3838 ∧
    ∀ g : Grid, ∀ y x : Nat, editGrid 1080 1920 3838 1000 6 1 g y x = g y x := by
  have s1 : handleZoom 5 0 0 true 1920 1080 ⟨1, 0, 0⟩ = ⟨mkRat 5 6, 0, 0⟩ := by
    norm_num [handleZoom, screenToGrid, pyInt, clampPan, simWidth, WIDTHc,
      HEIGHTc, uiPanelWidth, Rat.mkRat_eq_div, Viewport.mk.injEq, max_def,
      min_def]
  have s2 : handleZoom 5 0 0 true 1920 1080 ⟨mkRat 5 6, 0, 0⟩ =
      ⟨mkRat 25 36, 0, 0⟩ := by
    norm_num [handleZoom, screenToGrid, pyInt, clampPan, simWidth, WIDTHc,
      HEIGHTc, uiPanelWidth, Rat.mkRat_eq_div, Viewport.mk.injEq, max_def,
      min_def]
  have s3 : handleZoom 5 0 0 true 1920 1080 ⟨mkRat 25 36, 0, 0⟩ =
      ⟨mkRat 125 216, 0, 0⟩ := by
    norm_num [handleZoom, screenToGrid, pyInt, clampPan, simWidth, WIDTHc,
      HEIGHTc, uiPanelWidth, Rat.mkRat_eq_div, Viewport.mk.injEq, max_def,
      min_def]
  have s4 : handleZoom 5 0 0 true 1920 1080 ⟨mkRat 125 216, 0, 0⟩ =
      ⟨mkRat 1 2, 0, 0⟩ := by
    norm_num [handleZoom, screenToGrid, pyInt, clampPan, simWidth, WIDTHc,
      HEIGHTc, uiPanelWidth, Rat.mkRat_eq_div, Viewport.mk.injEq, max_def,
      min_def]
  refine ⟨by rw [s1, s2, s3, s4], by norm_num [Rat.mkRat_eq_div], ?_,
    by norm_num, ?_⟩
  · norm_num [screenToGrid, pyInt, Rat.mkRat_eq_div]
  · intro g y x
    simp only [editGrid]
    norm_num [normStop]

end PixelSim

namespace PixelSim

/-! Claim C4. -/

/-- C4 counterexample: with the UI hidden, grid 1920×1080, at the in-range
zoom level 1/2 and pan (0,0), a scroll-down zoom event leaves the state at
zoom 1/2 and pan (0,0) — yet the visible window `[pan, pan + viewport/zoom]`
is `[0, 3840]`, which does not stay within `[0, 1920]`. -/
theorem C4_counterexample :
    (mkRat 1 2 ≤ (mkRat 1 2 : ℚ) ∧ (mkRat 1 2 : ℚ) ≤ 8) ∧
    handleZoom 5 0 0 false 1920 1080 ⟨mkRat 1 2, 0, 0⟩ = ⟨mkRat 1 2, 0, 0⟩ ∧
    ¬((0 : ℚ) + simWidth false / mkRat 1 2 ≤ 1920) := by
  refine ⟨⟨le_refl _, by norm_num [Rat.mkRat_eq_div]⟩, ?_, ?_⟩
  · norm_num [handleZoom, screenToGrid, pyInt, clampPan, simWidth, WIDTHc,
      HEIGHTc, uiPanelWidth, Rat.mkRat_eq_div, Viewport.mk.injEq, max_def,
      min_def]
  · norm_num [simWidth, WIDTHc, uiPanelWidth, Rat.mkRat_eq_div]

/-- The zoom update of `handle_zoom` stays within `[min_zoom, max_zoom]`. -/
theorem zoomUpdate_bounds (b : Nat) (z : ℚ)
    (h1 : mkRat 1 2 ≤ z) (h2 : z ≤ 8) :
    mkRat 1 2 ≤ (if b = 4 then min 8 (z * mkRat 6 5)
      else if b = 5 then max (mkRat 1 2) (z / mkRat 6 5) else z) ∧
    (if b = 4 then min 8 (z * mkRat 6 5)
      else if b = 5 then max (mkRat 1 2) (z / mkRat 6 5) else z) ≤ 8 := by
  simp only [Rat.mkRat_eq_div] at h1 ⊢
  split_ifs with hb4 hb5
  · constructor
    · refine le_min (by norm_num) ?_
      nlinarith
    · exact min_le_left _ _
  · constructor
    · exact le_max_left _ _
    · refine max_le (by norm_num) ?_
      nlinarith
  · exact ⟨h1, h2⟩

/-- The pan clamp lands in `[0, limit]` whenever the limit is non-negative. -/
theorem clampPan_bounds (limit p : ℚ) (h : 0 ≤ limit) :
    0 ≤ clampPan limit p ∧ clampPan limit p ≤ limit :=
  ⟨le_max_left 0 _, max_le h (min_le_left _ _)⟩

/-- A clamped pan keeps the visible window inside the grid whenever the
window fits. -/
theorem clampPan_window (dim vz p : ℚ) (h : vz ≤ dim) :
    clampPan (max 0 (dim - vz)) p + vz ≤ dim := by
  have hnn : (0 : ℚ) ≤ dim - vz := by linarith
  have hb := (clampPan_bounds (max 0 (dim - vz)) p (le_max_left _ _)).2
  have h2 : max 0 (dim - vz) = dim - vz := max_eq_right hnn
  linarith [hb, h2.le]

/-- C4 (amended): after a zoom event that is not swallowed by the UI panel,
the zoom factor stays within `[min_zoom, max_zoom] = [1/2, 8]` and each pan
offset is clamped into `[0, max(0, grid_dimension - viewport_size/zoom)]`;
consequently the visible window `[pan, pan + viewport_size/zoom]` stays
within `[0, grid_dimension]` on each axis whenever `viewport_size/zoom`
does not exceed the grid dimension (when the window is larger than the grid,
the pan is 0 and the window necessarily overshoots). -/
theorem C4_zoom_bounds (button : Nat) (mouseX mouseY : ℚ) (uiVisible : Bool)
    (gridW gridH : ℚ) (v w : Viewport)
    (hz1 : mkRat 1 2 ≤ v.zoom) (hz2 : v.zoom ≤ 8)
    (hnr : ¬(uiVisible = true ∧ WIDTHc - uiPanelWidth < mouseX))
    (hw : w = handleZoom button mouseX mouseY uiVisible gridW gridH v) :
    (mkRat 1 2 ≤ w.zoom ∧ w.zoom ≤ 8) ∧
    (0 ≤ w.panX ∧ w.panX ≤ max 0 (gridW - simWidth uiVisible / w.zoom)) ∧
    (0 ≤ w.panY ∧ w.panY ≤ max 0 (gridH - HEIGHTc / w.zoom)) ∧
    (simWidth uiVisible / w.zoom ≤ gridW →
      w.panX + simWidth uiVisible / w.zoom ≤ gridW) ∧
    (HEIGHTc / w.zoom ≤ gridH → w.panY + HEIGHTc / w.zoom ≤ gridH) := by
  subst hw
  rw [handleZoom, if_neg hnr]
  dsimp only
  refine ⟨zoomUpdate_bounds button v.zoom hz1 hz2,
    clampPan_bounds _ _ (le_max_left _ _),
    clampPan_bounds _ _ (le_max_left _ _), ?_, ?_⟩
  · intro hle
    exact clampPan_window gridW _ _ hle
  · intro hle
    exact clampPan_window gridH _ _ hle

/-- C4 witness: the amended bounds at a concrete zoom-in event from the
initial viewport over a 1920×1080 grid with the UI hidden. -/
theorem C4_zoom_bounds_witness :
    (mkRat 1 2 ≤ (1 : ℚ) ∧ (1 : ℚ) ≤ 8) ∧
    ((mkRat 1 2 ≤ (handleZoom 4 100 100 false 1920 1080 ⟨1, 0, 0⟩).zoom ∧
        (handleZoom 4 100 100 false 1920 1080 ⟨1, 0, 0⟩).zoom ≤ 8) ∧
      (0 ≤ (handleZoom 4 100 100 false 1920 1080 ⟨1, 0, 0⟩).panX ∧
        (handleZoom 4 100 100 false 1920 1080 ⟨1, 0, 0⟩).panX ≤
          max 0 (1920 - simWidth false /
            (handleZoom 4 100 100 false 1920 1080 ⟨1, 0, 0⟩).zoom)) ∧
      (0 ≤ (handleZoom 4 100 100 false 1920 1080 ⟨1, 0, 0⟩).panY ∧
        (handleZoom 4 100 100 false 1920 1080 ⟨1, 0, 0⟩).panY ≤
          max 0 (1080 - HEIGHTc /
            (handleZoom 4 100 100 false 1920 1080 ⟨1, 0, 0⟩).zoom)) ∧
      (simWidth false / (handleZoom 4 100 100 false 1920 1080 ⟨1, 0, 0⟩).zoom ≤
          1920 →
        (handleZoom 4 100 100 false 1920 1080 ⟨1, 0, 0⟩).panX +
          simWidth false /
            (handleZoom 4 100 100 false 1920 1080 ⟨1, 0, 0⟩).zoom ≤ 1920) ∧
      (HEIGHTc / (handleZoom 4 100 100 false 1920 1080 ⟨1, 0, 0⟩).zoom ≤ 1080 →
        (handleZoom 4 100 100 false 1920 1080 ⟨1, 0, 0⟩).panY +
          HEIGHTc / (handleZoom 4 100 100 false 1920 1080 ⟨1, 0, 0⟩).zoom ≤
            1080)) :=
  ⟨⟨by norm_num [Rat.mkRat_eq_div], by norm_num⟩,
    C4_zoom_bounds 4 100 100 false 1920 1080 ⟨1, 0, 0⟩ _
      (by norm_num [Rat.mkRat_eq_div]) (by norm_num) (by simp) rfl⟩

end PixelSim

namespace PixelSim

/-! Claims C7 and C8. -/

/-- C7 counterexample: a brush edit at grid coordinate (gx, gy) = (0, -2)
with brush size 1 on a 4×4 all-empty grid requests a square that lies
entirely above the grid, so every in-bounds cell is outside the requested
square — yet the edit writes 1 into cell (0,0), because the negative slice
endpoint `y_end = min(height, -1) = -1` counts from the end of the axis in
numpy, selecting rows 0,1,2. -/
theorem C7_counterexample :
    editGrid 4 4 0 (-2) 1 1 zeroGrid 0 0 = 1 ∧
    zeroGrid 0 0 = 0 ∧
    ¬ inBrushSquare 0 (-2) 1 0 0 :=
  ⟨by decide, by decide, by decide⟩

set_option maxHeartbeats 2000000 in
/-- C7 (amended): for non-negative grid coordinates — the only ones
`handle_mouse` can produce, since screen positions and stored pan offsets are
non-negative — the brush edit is bounds-clamped with no wrap: every changed
cell lies in `[0, height) × [0, width)` and inside the requested brush
square, and every in-bounds cell of the requested square receives the brush
value.  (With a negative coordinate, numpy's negative slice endpoint counts
from the end of the axis, as the counterexample exhibits.) -/
theorem C7_edit_bounds (H W : Nat) (gx gy : Int) (brush cellType : Nat)
    (g : Grid) (hgx : 0 ≤ gx) (hgy : 0 ≤ gy) :
    (∀ y x : Nat, editGrid H W gx gy brush cellType g y x ≠ g y x →
      y < H ∧ x < W ∧ inBrushSquare gx gy brush y x) ∧
    (∀ y x : Nat, y < H → x < W → inBrushSquare gx gy brush y x →
      editGrid H W gx gy brush cellType g y x = cellType) := by
  simp only [editGrid, normStop, inBrushSquare]
  constructor
  · intro y x hch
    split_ifs at hch <;> omega
  · intro y x hy hx hin
    obtain ⟨h1, h2, h3, h4⟩ := hin
    split_ifs <;> first | rfl | (exfalso; omega)

/-- C7 witness: the brush writes its value at the in-bounds centre cell of a
brush square, at coordinate (1,1) with brush size 1 on a 3×3 grid. -/
theorem C7_edit_bounds_witness :
    (0 : Int) ≤ 1 ∧ (0 : Int) ≤ 1 ∧ (1 < 3 ∧ 1 < 3 ∧ inBrushSquare 1 1 1 1 1) ∧
    editGrid 3 3 1 1 1 2 zeroGrid 1 1 = 2 :=
  ⟨by decide, by decide, ⟨by decide, by decide, by decide⟩,
    (C7_edit_bounds 3 3 1 1 1 2 zeroGrid (by decide) (by decide)).2 1 1
      (by decide) (by decide) (by decide)⟩

/-- C8: `randomize_grid` sets each cell Alive exactly when its own uniform
draw falls below `density` (so Alive with probability `density`, Empty
otherwise, independently per cell: the result at a cell depends only on that
cell's draw); with `density = 0` every cell is Empty, with `density = 1`
every cell is Alive, regardless of the grid's prior contents (the whole grid
is replaced). -/
theorem C8_randomize (density : ℚ) (r : RField) :
    (∀ y x, randomizeGrid density r y x = 1 ↔ r y x < density) ∧
    (∀ y x, randomizeGrid density r y x = 1 ∨ randomizeGrid density r y x = 0) ∧
    (∀ r' : RField, ∀ y x, r' y x = r y x →
      randomizeGrid density r' y x = randomizeGrid density r y x) ∧
    (∀ y x, 0 ≤ r y x → randomizeGrid 0 r y x = 0) ∧
    (∀ y x, r y x < 1 → randomizeGrid 1 r y x = 1) := by
  refine ⟨fun y x => ?_, fun y x => ?_, fun r' y x h => ?_, fun y x h => ?_,
    fun y x h => ?_⟩
  · unfold randomizeGrid
    split_ifs with hc
    · simp [hc]
    · simp [hc]
  · unfold randomizeGrid
    split_ifs
    · exact Or.inl rfl
    · exact Or.inr rfl
  · unfold randomizeGrid
    rw [h]
  · have : ¬ (r y x < 0) := not_lt.mpr h
    simp [randomizeGrid, this]
  · simp [randomizeGrid, h]

/-- C8 witness: the randomize law at a field whose draw at (0,0) is 1/2 and
at density 1/2 the boundary cases, instantiated concretely. -/
theorem C8_randomize_witness :
    ((0 : ℚ) ≤ zeroField 5 7 ∧ randomizeGrid 0 zeroField 5 7 = 0) ∧
    (zeroField 5 7 < 1 ∧ randomizeGrid 1 zeroField 5 7 = 1) ∧
    (randomizeGrid (mkRat 1 2) zeroField 5 7 = 1 ↔
      zeroField 5 7 < mkRat 1 2) :=
  ⟨⟨by decide, (C8_randomize 0 zeroField).2.2.2.1 5 7 (by decide)⟩,
    ⟨by decide, (C8_randomize 1 zeroField).2.2.2.2 5 7 (by decide)⟩,
    (C8_randomize (mkRat 1 2) zeroField).1 5 7⟩

end PixelSim
